import Mathlib

/-!
# Verification of the chart-lab backend (`src/backend/server.py`)

A shallow embedding of the chart-generation service: CSV parsing and column
classification (`upload_csv`, lines 85–121), the chart renderer and request
handler (`generate_chart`, lines 123–235), and the chart store endpoints
(`get_charts`, lines 237–245; `get_chart`, lines 247–256).

Modelling conventions:
* CSV data is modelled after base64/UTF-8 decoding, as a header row plus rows
  of raw cell strings; the base64 transport is a bijection and is not modelled.
* pandas numeric literals are modelled as optional sign, decimal digits and an
  optional fractional part; exponent notation and surrounding whitespace are
  not modelled (no claim depends on them).
* Machine floats are modelled by exact rationals (and reals where square roots
  occur, in the Pearson correlation).
* The document store is a list of documents; the storage-engine `_id` field
  added by `insert_one` is the `mongoId` field, and `del chart[\x27_id\x27]`
  sets it to `none`.
* `uuid.uuid4()` and `datetime.utcnow()` are oracle parameters (`newId`,
  `now`) of the request handler.
-/

deriving instance DecidableEq for Except

namespace ChartLab

/-- A parsed dataframe cell: a number, a string, or missing (`NaN`). -/
inductive Cell where
  | num (q : ℚ)
  | str (s : String)
  | na
  deriving DecidableEq, Repr

/-- The column dtypes `pd.read_csv` can infer on the data this service sees:
integer/float columns are collapsed into `numeric` (both are `np.number`
dtypes, which is the only distinction `select_dtypes` is asked for),
all-boolean-literal columns become `boolean`, everything else `object`.
Dates are not auto-parsed by `read_csv` (no `parse_dates`), so they stay
`object`. -/
inductive Dtype where
  | numeric
  | boolean
  | object
  deriving DecidableEq, Repr

/-- Numeric value of the digit list `cs` read in base 10. -/
def digitsVal (cs : List Char) : ℕ :=
  cs.foldl (fun n c => 10 * n + (c.toNat - Char.toNat '0')) 0

/-- The numeric literals recognised by the pandas CSV reader, restricted to
the forms exercised here: optional sign, digits, optional fractional part
(at least one digit overall). -/
def parseQ (s : String) : Option ℚ :=
  let step : List Char → Option ℚ := fun cs =>
    let intPart := cs.takeWhile Char.isDigit
    let rest := cs.dropWhile Char.isDigit
    match rest with
    | [] =>
        if intPart.isEmpty then none else some ((digitsVal intPart : ℚ))
    | '.' :: frac =>
        if frac.all Char.isDigit && !(intPart.isEmpty && frac.isEmpty) then
          some ((digitsVal intPart : ℚ) + (digitsVal frac : ℚ) / (10 ^ frac.length))
        else none
    | _ => none
  match s.toList with
  | '-' :: cs => (step cs).map (fun q => -q)
  | '+' :: cs => step cs
  | cs => step cs

/-- Column dtype inference of `pd.read_csv` (line 97 / line 129):
a column whose non-empty cells all parse as numbers is numeric (an all-empty
column is an all-`NaN` float column, hence numeric); a column of bare
`True`/`False` literals (no empties — a bool column cannot hold `NaN`) is
boolean; anything else is `object`. -/
def inferDtype (cells : List String) : Dtype :=
  if cells.all (fun c => c = "" || (parseQ c).isSome) then Dtype.numeric
  else if cells.all (fun c => c = "True" || c = "False") then Dtype.boolean
  else Dtype.object

/-- Conversion of one raw cell under its column dtype: in a numeric column an
empty cell is `NaN` and the rest are numbers; in an object column an empty
cell is `NaN` and the rest stay strings; boolean cells are kept as their
literals (no claim renders a boolean column). -/
def parseCell (d : Dtype) (s : String) : Cell :=
  match d with
  | Dtype.numeric =>
      if s = "" then Cell.na else
        match parseQ s with
        | some q => Cell.num q
        | none => Cell.na
  | Dtype.boolean => Cell.str s
  | Dtype.object => if s = "" then Cell.na else Cell.str s

/-- Raw CSV content after base64/UTF-8 decoding: a header row and data rows
of cell strings. -/
structure Csv where
  header : List String
  rows : List (List String)
  deriving DecidableEq, Repr

/-- One dataframe column: its name, inferred dtype, and parsed cells. -/
structure Col where
  name : String
  dtype : Dtype
  cells : List Cell
  deriving DecidableEq, Repr

/-- Embeds `pd.read_csv` (line 97 / line 129): per column, infer the dtype from the
raw strings, then convert every cell under it. A row shorter than the header
is padded with empty cells (pandas fills `NaN`). -/
def read_csv (csv : Csv) : List Col :=
  csv.header.enum.map (fun p =>
    let raw := csv.rows.map (fun r => r.getD p.1 (""))
    { name := p.2, dtype := inferDtype raw, cells := raw.map (parseCell (inferDtype raw)) })

/-- Embeds `df.columns` — the column names in order. -/
def columnsOf (df : List Col) : List String := df.map (fun c => c.name)

/-- Embeds `df.select_dtypes(include=[\x27number\x27])` (lines 101 and 192). -/
def numericCols (df : List Col) : List Col :=
  df.filter (fun c => c.dtype = Dtype.numeric)

/-- Embeds `numeric_columns` of `upload_csv` (line 101). -/
def numeric_columns (df : List Col) : List String :=
  (numericCols df).map (fun c => c.name)

/-- Embeds `categorical_columns` of `upload_csv` (line 102):
`select_dtypes(include=[\x27object\x27, \x27category\x27])`. -/
def categorical_columns (df : List Col) : List String :=
  (df.filter (fun c => c.dtype = Dtype.object)).map (fun c => c.name)

/-! ## Aggregation: `value_counts` and `groupby(...).sum()`

Both are modelled as folds over an association list keyed by cell value, in
first-seen key order. (pandas orders `value_counts` by descending count and
`groupby` by sorted key; no claim depends on the order of the aggregate.) -/

/-- Add `b` to the entry of key `k` (appending a fresh entry if absent). -/
def bumpAssoc {β : Type} [Add β] : List (Cell × β) → Cell → β → List (Cell × β)
  | [], k, b => [(k, b)]
  | (k', b') :: rest, k, b =>
      if k' = k then (k', b' + b) :: rest else (k', b') :: bumpAssoc rest k b

/-- Value of key `k` in the association list, `0` when absent. -/
def lookupAssoc {β : Type} [Zero β] : List (Cell × β) → Cell → β
  | [], _ => 0
  | (k', b') :: rest, k => if k' = k then b' else lookupAssoc rest k

/-- Embeds `df[x].value_counts()` (lines 149 and 180): occurrence counts of the
non-missing values of a column (`value_counts` drops `NaN`). -/
def value_counts (cells : List Cell) : List (Cell × ℕ) :=
  cells.foldl (fun acc c => if c = Cell.na then acc else bumpAssoc acc c 1) []

/-- Direct recomputation of a value's frequency in a column. -/
def countv (cells : List Cell) (v : Cell) : ℕ :=
  (cells.filter (fun c => c = v)).length

/-! ## Exceptions of the handler body -/

/-- The exceptions that can escape the `try` body of `generate_chart`:
the `HTTPException`s it raises itself (lines 172 and 194), `KeyError` from a
`df[col]` access on an absent column, `TypeError` from plotting non-numeric
data, and `ValueError` from an unknown color-map name. -/
inductive Exc where
  | http (status : ℕ) (detail : String)
  | keyError (key : String)
  | typeError (msg : String)
  | valueError (msg : String)
  deriving DecidableEq, Repr

/-- Stringification `str(e)` for the exceptions above, as interpolated into the 500 detail at
line 235 (a `KeyError` stringifies to its quoted key; the quotes are not
modelled). -/
def excStr : Exc → String
  | Exc.http status detail => toString status ++ ": " ++ detail
  | Exc.keyError key => key
  | Exc.typeError msg => msg
  | Exc.valueError msg => msg

/-- Embeds `df[x]` — the column named `x`, or a `KeyError`. -/
def dfCol (df : List Col) (x : String) : Except Exc Col :=
  match df.find? (fun c => c.name = x) with
  | some c => Except.ok c
  | none => Except.error (Exc.keyError x)

/-- Python truthiness-and-membership test `y_column and y_column in
df.columns` guarding the y-branches (lines 144, 156, 167, 175): an empty
string is falsy. -/
def yTruthyIn (y : Option String) (names : List String) : Bool :=
  match y with
  | none => false
  | some s => !(s = "") && names.contains s

/-- Bare Python truthiness of `y_column` alone (line 164). -/
def yTruthy (y : Option String) : Bool :=
  match y with
  | none => false
  | some s => !(s = "")

/-- The registered matplotlib color-map names, restricted to the handful the
repository's tests exercise; `plt.cm.get_cmap` raises `ValueError` on any
other name. -/
def knownCmaps : List String :=
  ["viridis", "plasma", "inferno", "magma", "cividis", "Blues", "Greens", "Reds", "coolwarm"]

/-- Embeds `plt.cm.get_cmap(color_scheme)` (lines 145, 150, 157, 161, 168, 182, 186)
and the color-map validation inside `imshow` (line 197). -/
def get_cmap (s : String) : Except Exc Unit :=
  if knownCmaps.contains s then Except.ok () else
    Except.error (Exc.valueError ("is not a valid value for name; supported values are ..."))

/-- Embeds `df.groupby(x_column)[y_column].sum()` (line 177), as a fold over the
paired rows: `NaN` group keys are dropped, `NaN` y-values are skipped
(`sum` default `skipna`, an all-`NaN` group sums to `0`), and a string
y-value is modelled as a `TypeError` (pandas object-dtype summation, string
concatenation, is not modelled; no claim depends on it). -/
def groupby_sum_aux : List (Cell × Cell) → List (Cell × ℚ) → Except Exc (List (Cell × ℚ))
  | [], acc => Except.ok acc
  | (k, y) :: rest, acc =>
      if k = Cell.na then groupby_sum_aux rest acc
      else
        match y with
        | Cell.str _ => Except.error (Exc.typeError ("unsupported operand type for +"))
        | Cell.na => groupby_sum_aux rest (bumpAssoc acc k 0)
        | Cell.num q => groupby_sum_aux rest (bumpAssoc acc k q)

/-- See `groupby_sum_aux`. -/
def groupby_sum (xs ys : List Cell) : Except Exc (List (Cell × ℚ)) :=
  groupby_sum_aux (xs.zip ys) []

/-- Numeric reading of a cell used by the direct group-sum recomputation
(`NaN` contributes `0`, i.e. is skipped). -/
def cellQ : Cell → ℚ
  | Cell.num q => q
  | Cell.str _ => 0
  | Cell.na => 0

/-- Direct recomputation of the group sum: the sum of the y-values of the
rows whose x-value is `v`. -/
def directGroupSum (xs ys : List Cell) (v : Cell) : ℚ :=
  (((xs.zip ys).filter (fun p => p.1 = v)).map (fun p => cellQ p.2)).sum

/-! ## The figure -/

/-- A drawing primitive issued against the current figure, carrying the data
series the code passes to the corresponding `plt` call. The heatmap primitive
carries the numeric sub-frame handed to `.corr()`; the correlation matrix it
determines is `corr` below. The per-cell text overlay, tick rotation details
and `tight_layout` are presentational and not modelled. -/
inductive PlotOp where
  | bar (xs ys : List Cell)
  | plotXY (xs ys : List Cell)
  | scatter (xs ys : List Cell)
  | pie (labels : List Cell) (values : List ℚ)
  | hist (values : List ℚ) (bins : ℕ)
  | heatmap (numeric : List (String × List Cell))
  | colorbar
  | xticksRot
  deriving DecidableEq, Repr

/-- The state of the current matplotlib figure: its size (`figsize` in pixels,
line 141), the drawing primitives in issue order, and the latest axis labels
and title (`plt.xlabel`/`ylabel`/`title` overwrite). -/
structure Fig where
  size : ℤ × ℤ
  ops : List PlotOp
  xlabel : Option String
  ylabel : Option String
  title : Option String
  deriving DecidableEq, Repr

/-- The `config` dict of the request after the lookups of lines 132–138
(`chart_type` and `x_column` are required keys; the rest default). -/
structure Cfg where
  chart_type : String
  x_column : String
  y_column : Option String := none
  color_scheme : String := "viridis"
  title : String := "Chart"
  width : ℤ := 800
  height : ℤ := 600
  deriving DecidableEq, Repr

/-! ## The rendering dispatch (lines 143–206) -/

/-- Numeric projection of a cell (used by `dropna()`-then-plot paths). -/
def cellNumOf : Cell → Option ℚ
  | Cell.num q => some q
  | _ => none

/-- Index cells `df.index` for the y-less line plot (line 161). -/
def indexCells (df : List Col) : List Cell :=
  (List.range ((df.head?.map (fun c => c.cells.length)).getD 0)).map
    (fun i => Cell.num (i : ℚ))

/-- The six-way `if`/`elif` chain of lines 143–206, acting on the fresh
figure. Each branch evaluates its `df[...]` accesses, aggregations and
color-map lookup in source order, issues its drawing primitive, and sets the
axis labels the source sets; an unmatched `chart_type` falls through with the
figure untouched. -/
def renderBranch (df : List Col) (cfg : Cfg) (fig : Fig) : Except Exc Fig :=
  let names := columnsOf df
  if cfg.chart_type = "bar" then
    if yTruthyIn cfg.y_column names then do
      let xc ← dfCol df cfg.x_column
      let yc ← dfCol df (cfg.y_column.getD (""))
      let _ ← get_cmap cfg.color_scheme
      pure { fig with ops := fig.ops ++ [PlotOp.bar xc.cells yc.cells, PlotOp.xticksRot],
                      ylabel := cfg.y_column, xlabel := some cfg.x_column }
    else do
      let xc ← dfCol df cfg.x_column
      let vc := value_counts xc.cells
      let _ ← get_cmap cfg.color_scheme
      pure { fig with
              ops := fig.ops ++
                [PlotOp.bar (vc.map Prod.fst) (vc.map (fun p => Cell.num (p.2 : ℚ))),
                 PlotOp.xticksRot],
              ylabel := some ("Count"), xlabel := some cfg.x_column }
  else if cfg.chart_type = "line" then do
    let base ←
      if yTruthyIn cfg.y_column names then do
        let xc ← dfCol df cfg.x_column
        let yc ← dfCol df (cfg.y_column.getD (""))
        let _ ← get_cmap cfg.color_scheme
        pure { fig with ops := fig.ops ++ [PlotOp.plotXY xc.cells yc.cells],
                        ylabel := cfg.y_column }
      else do
        let xc ← dfCol df cfg.x_column
        let _ ← get_cmap cfg.color_scheme
        pure { fig with ops := fig.ops ++ [PlotOp.plotXY (indexCells df) xc.cells],
                        ylabel := some cfg.x_column, xlabel := some ("Index") }
    -- line 164: `plt.xlabel(x_column if y_column else 'Index')`
    pure { base with
            xlabel := if yTruthy cfg.y_column then some cfg.x_column else some ("Index") }
  else if cfg.chart_type = "scatter" then
    if yTruthyIn cfg.y_column names then do
      let xc ← dfCol df cfg.x_column
      let yc ← dfCol df (cfg.y_column.getD (""))
      let _ ← get_cmap cfg.color_scheme
      pure { fig with ops := fig.ops ++ [PlotOp.scatter xc.cells yc.cells],
                      ylabel := cfg.y_column, xlabel := some cfg.x_column }
    else
      -- line 172: raised here, but swallowed by the blanket handler below
      Except.error (Exc.http 400 ("Scatter plot requires both X and Y columns"))
  else if cfg.chart_type = "pie" then do
    let pd ←
      if yTruthyIn cfg.y_column names then do
        let xc ← dfCol df cfg.x_column
        let yc ← dfCol df (cfg.y_column.getD (""))
        groupby_sum xc.cells yc.cells
      else do
        let xc ← dfCol df cfg.x_column
        pure ((value_counts xc.cells).map (fun p => (p.1, (p.2 : ℚ))))
    let _ ← get_cmap cfg.color_scheme
    pure { fig with ops := fig.ops ++ [PlotOp.pie (pd.map Prod.fst) (pd.map Prod.snd)] }
  else if cfg.chart_type = "histogram" then do
    let xc ← dfCol df cfg.x_column
    let _ ← get_cmap cfg.color_scheme
    -- `plt.hist` on string data raises `TypeError`; `dropna()` drops `NaN`
    if xc.cells.any (fun c => match c with | Cell.str _ => true | _ => false) then
      Except.error (Exc.typeError ("unsupported operand type in hist"))
    else
      pure { fig with ops := fig.ops ++ [PlotOp.hist (xc.cells.filterMap cellNumOf) 30],
                      xlabel := some cfg.x_column, ylabel := some ("Frequency") }
  else if cfg.chart_type = "heatmap" then
    let nd := numericCols df
    if nd.length < 2 then
      -- line 194: raised here, but swallowed by the blanket handler below
      Except.error (Exc.http 400 ("Heatmap requires at least 2 numeric columns"))
    else do
      let _ ← get_cmap cfg.color_scheme
      pure { fig with
              ops := fig.ops ++
                [PlotOp.heatmap (nd.map (fun c => (c.name, c.cells))), PlotOp.colorbar] }
  else
    -- no `else` in the source: an unknown chart type draws nothing
    pure fig

/-- Lines 141–209: create the figure at the configured size, run the
dispatch, then `plt.title(title)`. -/
def renderFigure (df : List Col) (cfg : Cfg) : Except Exc Fig := do
  let fig0 : Fig :=
    { size := (cfg.width, cfg.height), ops := [], xlabel := none, ylabel := none, title := none }
  let fig ← renderBranch df cfg fig0
  pure { fig with title := some cfg.title }

/-! ## The request handler and the chart store -/

/-- Structural check of `pd.read_csv` at line 129: an empty input raises
`EmptyDataError` and a data row with more fields than the header raises
`ParserError`; otherwise the dataframe is built. -/
def read_csv_checked (csv : Csv) : Except Exc (List Col) :=
  if csv.header.isEmpty then
    Except.error (Exc.valueError ("No columns to parse from file"))
  else if csv.rows.any (fun r => csv.header.length < r.length) then
    Except.error (Exc.valueError ("Error tokenizing data"))
  else Except.ok (read_csv csv)

/-- A `POST /api/generate-chart` body after JSON parsing: `filename`, the
decoded `data`, and the `config` dict. -/
structure Request where
  filename : String
  data : Csv
  config : Cfg
  deriving DecidableEq, Repr

/-- A stored chart document: the `ChartData` fields (lines 60–66) plus the
storage-engine `_id` the driver adds on insert. -/
structure ChartDoc where
  mongoId : Option ℕ
  id : String
  filename : String
  data : Csv
  config : Cfg
  chart_image : Fig
  timestamp : ℕ
  deriving DecidableEq, Repr

/-- The success payload of `generate_chart` (lines 228–232). -/
structure Resp where
  id : String
  chart_image : Fig
  message : String
  deriving DecidableEq, Repr

/-- An HTTP error response (`HTTPException` as surfaced to the client). -/
structure HErr where
  status : ℕ
  detail : String
  deriving DecidableEq, Repr

/-- The observable outcome of one `generate_chart` call: the response, the
chart store afterwards, and the number of open matplotlib figures afterwards
(the process-global state `plt` keeps between calls). -/
structure GenResult where
  resp : Except HErr Resp
  store : List ChartDoc
  openFigures : ℕ
  deriving Repr

/-- The `ChartData(...)` document built and inserted at lines 219–226; the
store assigns the `_id`. -/
def mkDoc (now : ℕ) (newId : String) (oid : ℕ) (req : Request) (img : Fig) : ChartDoc :=
  { mongoId := some oid, id := newId, filename := req.filename, data := req.data,
    config := req.config, chart_image := img, timestamp := now }

/-- Embeds `generate_chart` (lines 123–235). `now` models
`datetime.utcnow()`, `newId` models `uuid.uuid4()`, `store` and `figs` are
the chart collection and the count of open matplotlib figures before the
call.

Control flow of the source: the whole body sits in
`try: ... except Exception as e: raise HTTPException(status_code=500, ...)`.
`fastapi.HTTPException` derives from `Exception`, so the 400s raised inside
the body at lines 172 and 194 are caught here too and re-raised as 500s.
The figure is opened at line 141 (after `read_csv`) and closed at line 216
only on the success path: an exception between those lines leaves it open. -/
def generate_chart (now : ℕ) (newId : String) (store : List ChartDoc) (figs : ℕ)
    (req : Request) : GenResult :=
  match read_csv_checked req.data with
  | Except.error e =>
      -- failed before `plt.figure()`: no figure leaked, nothing persisted
      { resp := Except.error { status := 500, detail := "Error generating chart: " ++ excStr e },
        store := store, openFigures := figs }
  | Except.ok df =>
      -- line 141: `plt.figure(...)` — one more open figure while the body runs
      match renderFigure df req.config with
      | Except.error e =>
          -- the `except` at line 234 converts every exception to a 500;
          -- `plt.close()` was never reached, the figure stays open
          { resp :=
              Except.error { status := 500, detail := "Error generating chart: " ++ excStr e },
            store := store, openFigures := figs + 1 }
      | Except.ok img =>
          -- lines 211–232: encode, `plt.close()`, insert, respond
          { resp :=
              Except.ok { id := newId, chart_image := img,
                          message := "Chart generated successfully" },
            store := store ++ [mkDoc now newId store.length req img],
            openFigures := figs }

/-- Strips the storage-engine `_id` (`del chart[\x27_id\x27]`). -/
def stripDoc (d : ChartDoc) : ChartDoc := { d with mongoId := none }

/-- Embeds `get_charts` (lines 237–245): `db.charts.find().to_list(1000)`
returns at most the first 1000 documents, then `_id` is deleted from each. -/
def get_charts (store : List ChartDoc) : List ChartDoc :=
  (store.take 1000).map stripDoc

/-- Embeds `get_chart` (lines 247–256): `find_one({"id": chart_id})`, 404
when absent, `_id` deleted before returning. -/
def get_chart (store : List ChartDoc) (chart_id : String) : Except HErr ChartDoc :=
  match store.find? (fun d => d.id = chart_id) with
  | none => Except.error { status := 404, detail := "Chart not found" }
  | some c => Except.ok (stripDoc c)

/-! ## Pearson correlation (`numeric_df.corr()`, line 196)

pandas computes, for each pair of numeric columns, the Pearson coefficient
over the rows where both values are present (pairwise complete observations,
`min_periods=1`): the centred cross-sum divided by the square root of the
product of the centred self-sums (the `nobs - 1` normalisations cancel).
When a column has zero variance the divisor is zero and pandas yields `NaN`;
in this embedding division by zero yields `0`, which agrees with `NaN` on
every claim checked here (both differ from `1`). Float rounding is not
modelled (exact real arithmetic). -/

/-- Rows where both cells are numeric — the pairwise complete observations. -/
def completePairs (xs ys : List Cell) : List (ℚ × ℚ) :=
  (xs.zip ys).filterMap (fun p =>
    match cellNumOf p.1, cellNumOf p.2 with
    | some a, some b => some (a, b)
    | _, _ => none)

/-- Sum of a rational list, read in `ℝ`. -/
noncomputable def qsum (l : List ℚ) : ℝ := (l.map (fun a => (a : ℝ))).sum

/-- Mean of a rational list, read in `ℝ` (empty list: `0/0 = 0`). -/
noncomputable def meanR (l : List ℚ) : ℝ := qsum l / l.length

/-- Centred cross-sum `Σ (x - x̄)(y - ȳ)` of the paired observations. -/
noncomputable def covXY (ps : List (ℚ × ℚ)) : ℝ :=
  (ps.map (fun p =>
    ((p.1 : ℝ) - meanR (ps.map Prod.fst)) * ((p.2 : ℝ) - meanR (ps.map Prod.snd)))).sum

/-- Centred self-sum `Σ (x - x̄)²` of the first components. -/
noncomputable def ssX (ps : List (ℚ × ℚ)) : ℝ :=
  (ps.map (fun p =>
    ((p.1 : ℝ) - meanR (ps.map Prod.fst)) * ((p.1 : ℝ) - meanR (ps.map Prod.fst)))).sum

/-- Centred self-sum `Σ (y - ȳ)²` of the second components. -/
noncomputable def ssY (ps : List (ℚ × ℚ)) : ℝ :=
  (ps.map (fun p =>
    ((p.2 : ℝ) - meanR (ps.map Prod.snd)) * ((p.2 : ℝ) - meanR (ps.map Prod.snd)))).sum

/-- One entry of the pandas correlation matrix for the columns `xs`, `ys`. -/
noncomputable def corrEntry (xs ys : List Cell) : ℝ :=
  covXY (completePairs xs ys) / Real.sqrt (ssX (completePairs xs ys) * ssY (completePairs xs ys))

/-- Embeds `numeric_df.corr()` (line 196): the square matrix of pairwise
Pearson coefficients of the given columns. -/
noncomputable def corr (cols : List (List Cell)) : List (List ℝ) :=
  cols.map (fun c => cols.map (fun c2 => corrEntry c c2))

/-- The centred self-sum of a single column over its own complete
observations — the (unnormalised) variance whose vanishing makes the pandas
diagonal `NaN`. -/
noncomputable def colSS (xs : List Cell) : ℝ := ssX (completePairs xs xs)

/-! # Theorems -/

/-- The column names of the parsed dataframe are exactly the header. -/
lemma columnsOf_read_csv (csv : Csv) : columnsOf (read_csv csv) = csv.header := by
  unfold columnsOf read_csv
  rw [List.map_map]
  show csv.header.enum.map Prod.snd = csv.header
  rw [List.enum_eq_enumFrom, List.enumFrom_map_snd]

/-- Two columns of a dataframe with distinct column names are determined by
their name. -/
lemma col_eq_of_name_eq {df : List Col} (h : (columnsOf df).Nodup)
    {c1 c2 : Col} (h1 : c1 ∈ df) (h2 : c2 ∈ df) (hn : c1.name = c2.name) : c1 = c2 :=
  List.inj_on_of_nodup_map h h1 h2 hn

/-- C3: for every CSV input (pandas mangles duplicate headers to distinct
names, so headers are assumed distinct), the numeric and categorical column
lists are disjoint, and — provided no column is inferred boolean — their
union is the full column list. (The boolean proviso is forced by the
counterexample `infer_classification_cex`: `select_dtypes` over
`number`/`object`/`category` misses `bool` columns.) -/
theorem infer_classification (csv : Csv) (hnd : csv.header.Nodup) :
    (∀ name, ¬(name ∈ numeric_columns (read_csv csv) ∧
               name ∈ categorical_columns (read_csv csv)))
    ∧ ((∀ c ∈ read_csv csv, c.dtype ≠ Dtype.boolean) →
        ∀ name, name ∈ columnsOf (read_csv csv) ↔
          (name ∈ numeric_columns (read_csv csv) ∨
           name ∈ categorical_columns (read_csv csv))) := by
  have hmapnd : (columnsOf (read_csv csv)).Nodup := by
    rw [columnsOf_read_csv]; exact hnd
  constructor
  · rintro name ⟨hn, hc⟩
    simp only [numeric_columns, numericCols, categorical_columns, List.mem_map,
      List.mem_filter, decide_eq_true_eq] at hn hc
    obtain ⟨c1, ⟨hc1, hd1⟩, rfl⟩ := hn
    obtain ⟨c2, ⟨hc2, hd2⟩, hname⟩ := hc
    have : c1 = c2 := col_eq_of_name_eq hmapnd hc1 hc2 hname.symm
    subst this
    rw [hd1] at hd2
    exact Dtype.noConfusion hd2
  · intro hb name
    constructor
    · intro hmem
      simp only [columnsOf, List.mem_map] at hmem
      obtain ⟨c, hc, rfl⟩ := hmem
      rcases hdt : c.dtype with _ | _ | _
      · left
        simp only [numeric_columns, numericCols, List.mem_map, List.mem_filter,
          decide_eq_true_eq]
        exact ⟨c, ⟨hc, hdt⟩, rfl⟩
      · exact absurd hdt (hb c hc)
      · right
        simp only [categorical_columns, List.mem_map, List.mem_filter, decide_eq_true_eq]
        exact ⟨c, ⟨hc, hdt⟩, rfl⟩
    · intro hmem
      rcases hmem with hmem | hmem
      · simp only [numeric_columns, numericCols, List.mem_map, List.mem_filter,
          decide_eq_true_eq] at hmem
        obtain ⟨c, ⟨hc, _⟩, rfl⟩ := hmem
        exact List.mem_map_of_mem _ hc
      · simp only [categorical_columns, List.mem_map, List.mem_filter,
          decide_eq_true_eq] at hmem
        obtain ⟨c, ⟨hc, _⟩, rfl⟩ := hmem
        exact List.mem_map_of_mem _ hc

/-- A CSV whose first column consists of boolean literals. -/
def boolCsv : Csv := { header := ["a", "b"], rows := [["True", "1"], ["False", "2"]] }

/-- C3 counterexample: on `boolCsv` the column `a` (dtype `bool`) is neither
in `numeric_columns` nor in `categorical_columns`, so the union of the two
classes is not the full set of columns. -/
theorem infer_classification_cex :
    "a" ∈ columnsOf (read_csv boolCsv)
    ∧ "a" ∉ numeric_columns (read_csv boolCsv)
    ∧ "a" ∉ categorical_columns (read_csv boolCsv) := by decide

/-- A CSV with one object column and one numeric column. -/
def plainCsv : Csv := { header := ["d", "s"], rows := [["x", "1"], ["y", "2"]] }

/-- Witness for `infer_classification` at `plainCsv`. -/
theorem infer_classification_witness :
    ¬("s" ∈ numeric_columns (read_csv plainCsv) ∧
      "s" ∈ categorical_columns (read_csv plainCsv))
    ∧ ("d" ∈ columnsOf (read_csv plainCsv) ↔
        ("d" ∈ numeric_columns (read_csv plainCsv) ∨
         "d" ∈ categorical_columns (read_csv plainCsv))) :=
  ⟨(infer_classification plainCsv (by decide)).1 "s",
   (infer_classification plainCsv (by decide)).2 (by decide) "d"⟩

/-! ## Association-list facts for the aggregations -/

lemma bumpAssoc_nil {β : Type} [Add β] (k : Cell) (b : β) :
    bumpAssoc [] k b = [(k, b)] := rfl

lemma bumpAssoc_cons {β : Type} [Add β] (k' : Cell) (b' : β) (rest : List (Cell × β))
    (k : Cell) (b : β) :
    bumpAssoc ((k', b') :: rest) k b =
      if k' = k then (k', b' + b) :: rest else (k', b') :: bumpAssoc rest k b := rfl

lemma lookupAssoc_nil {β : Type} [Zero β] (k : Cell) : lookupAssoc ([] : List (Cell × β)) k = 0 := rfl

lemma lookupAssoc_cons {β : Type} [Zero β] (k' : Cell) (b' : β) (rest : List (Cell × β))
    (k : Cell) :
    lookupAssoc ((k', b') :: rest) k = if k' = k then b' else lookupAssoc rest k := rfl

lemma lookupAssoc_bumpAssoc_self {β : Type} [AddZeroClass β] (acc : List (Cell × β))
    (k : Cell) (b : β) : lookupAssoc (bumpAssoc acc k b) k = lookupAssoc acc k + b := by
  induction acc with
  | nil => rw [bumpAssoc_nil, lookupAssoc_cons, if_pos rfl, lookupAssoc_nil, zero_add]
  | cons p rest ih =>
    obtain ⟨k', b'⟩ := p
    by_cases h : k' = k
    · rw [bumpAssoc_cons, if_pos h, lookupAssoc_cons, if_pos h, lookupAssoc_cons, if_pos h]
    · rw [bumpAssoc_cons, if_neg h, lookupAssoc_cons, if_neg h, lookupAssoc_cons, if_neg h, ih]

lemma lookupAssoc_bumpAssoc_ne {β : Type} [Zero β] [Add β] (acc : List (Cell × β))
    (k w : Cell) (b : β) (h : w ≠ k) :
    lookupAssoc (bumpAssoc acc k b) w = lookupAssoc acc w := by
  have hk : ¬(k = w) := fun hh => h (Eq.symm hh)
  induction acc with
  | nil => rw [bumpAssoc_nil, lookupAssoc_cons, if_neg hk]
  | cons p rest ih =>
    obtain ⟨k', b'⟩ := p
    by_cases hkk : k' = k
    · subst hkk
      rw [bumpAssoc_cons, if_pos rfl, lookupAssoc_cons, if_neg hk, lookupAssoc_cons, if_neg hk]
    · rw [bumpAssoc_cons, if_neg hkk, lookupAssoc_cons, lookupAssoc_cons, ih]

lemma exists_mem_bumpAssoc_self {β : Type} [Add β] (acc : List (Cell × β)) (k : Cell)
    (b : β) : ∃ x, (k, x) ∈ bumpAssoc acc k b := by
  induction acc with
  | nil => exact ⟨b, by rw [bumpAssoc_nil]; exact List.mem_singleton.mpr rfl⟩
  | cons p rest ih =>
    obtain ⟨k', b'⟩ := p
    by_cases h : k' = k
    · subst h
      exact ⟨b' + b, by rw [bumpAssoc_cons, if_pos rfl]; exact List.mem_cons_self _ _⟩
    · obtain ⟨x, hx⟩ := ih
      exact ⟨x, by rw [bumpAssoc_cons, if_neg h]; exact List.mem_cons_of_mem _ hx⟩

lemma exists_mem_bumpAssoc_of_mem {β : Type} [Add β] (acc : List (Cell × β)) (k w : Cell)
    (b : β) (h : ∃ x, (w, x) ∈ acc) : ∃ x, (w, x) ∈ bumpAssoc acc k b := by
  induction acc with
  | nil => obtain ⟨x, hx⟩ := h; simp at hx
  | cons p rest ih =>
    obtain ⟨k', b'⟩ := p
    obtain ⟨x, hx⟩ := h
    by_cases hk : k' = k
    · rcases List.mem_cons.mp hx with hx | hx
      · have hw : w = k' := congrArg Prod.fst hx
        exact ⟨b' + b, by rw [bumpAssoc_cons, if_pos hk, hw]; exact List.mem_cons_self _ _⟩
      · exact ⟨x, by rw [bumpAssoc_cons, if_pos hk]; exact List.mem_cons_of_mem _ hx⟩
    · rcases List.mem_cons.mp hx with hx | hx
      · exact ⟨x, by rw [bumpAssoc_cons, if_neg hk]; exact List.mem_cons.mpr (Or.inl hx)⟩
      · obtain ⟨y, hy⟩ := ih ⟨x, hx⟩
        exact ⟨y, by rw [bumpAssoc_cons, if_neg hk]; exact List.mem_cons_of_mem _ hy⟩

lemma mem_of_exists_mem {β : Type} [Zero β] (acc : List (Cell × β)) (k : Cell)
    (h : ∃ x, (k, x) ∈ acc) : (k, lookupAssoc acc k) ∈ acc := by
  induction acc with
  | nil => obtain ⟨x, hx⟩ := h; simp at hx
  | cons p rest ih =>
    obtain ⟨k', b'⟩ := p
    by_cases hk : k' = k
    · subst hk
      rw [lookupAssoc_cons, if_pos rfl]
      exact List.mem_cons_self _ _
    · rw [lookupAssoc_cons, if_neg hk]
      obtain ⟨x, hx⟩ := h
      rcases List.mem_cons.mp hx with hx | hx
      · exact absurd (congrArg Prod.fst hx).symm hk
      · exact List.mem_cons_of_mem _ (ih ⟨x, hx⟩)

lemma countv_cons_self (v : Cell) (rest : List Cell) :
    countv (v :: rest) v = countv rest v + 1 := by
  simp [countv, List.filter_cons]

lemma countv_cons_ne (c : Cell) (rest : List Cell) (v : Cell) (h : ¬(c = v)) :
    countv (c :: rest) v = countv rest v := by
  simp [countv, List.filter_cons, h]

/-- Running the `value_counts` fold over `cells` starting from `acc` adds
each non-missing value's frequency to its entry. -/
lemma value_counts_fold_lookup (cells : List Cell) (v : Cell) (hv : v ≠ Cell.na) :
    ∀ acc : List (Cell × ℕ),
      lookupAssoc (cells.foldl
          (fun acc c => if c = Cell.na then acc else bumpAssoc acc c 1) acc) v
        = lookupAssoc acc v + countv cells v := by
  induction cells with
  | nil => intro acc; simp [countv]
  | cons c rest ih =>
    intro acc
    by_cases hc : c = Cell.na
    · subst hc
      have hcv : ¬(Cell.na = v) := fun hh => hv (Eq.symm hh)
      rw [List.foldl_cons, if_pos rfl, countv_cons_ne _ _ _ hcv, ih acc]
    · by_cases hcv : c = v
      · subst hcv
        rw [List.foldl_cons, if_neg hc, ih (bumpAssoc acc c 1), lookupAssoc_bumpAssoc_self,
          countv_cons_self]
        omega
      · rw [List.foldl_cons, if_neg hc, countv_cons_ne _ _ _ hcv, ih (bumpAssoc acc c 1),
          lookupAssoc_bumpAssoc_ne acc c v 1 (fun hh => hcv (Eq.symm hh))]

/-- The `value_counts` fold never loses a key it has seen. -/
lemma value_counts_fold_keys (cells : List Cell) (v : Cell) :
    ∀ acc : List (Cell × ℕ), ((∃ x, (v, x) ∈ acc) ∨ (v ∈ cells ∧ v ≠ Cell.na)) →
      ∃ x, (v, x) ∈ cells.foldl
          (fun acc c => if c = Cell.na then acc else bumpAssoc acc c 1) acc := by
  induction cells with
  | nil =>
    intro acc h
    rcases h with h | ⟨h, _⟩
    · simpa using h
    · simp at h
  | cons c rest ih =>
    intro acc h
    by_cases hc : c = Cell.na
    · subst hc
      rw [List.foldl_cons, if_pos rfl]
      apply ih
      rcases h with h | ⟨h, hne⟩
      · exact Or.inl h
      · rcases List.mem_cons.mp h with h | h
        · exact absurd h hne
        · exact Or.inr ⟨h, hne⟩
    · rw [List.foldl_cons, if_neg hc]
      apply ih
      rcases h with h | ⟨h, hne⟩
      · exact Or.inl (exists_mem_bumpAssoc_of_mem acc c v 1 h)
      · rcases List.mem_cons.mp h with h | h
        · subst h; exact Or.inl (exists_mem_bumpAssoc_self acc v 1)
        · exact Or.inr ⟨h, hne⟩

/-- Every non-missing value of a column appears in `value_counts` with
exactly its frequency. -/
lemma value_counts_mem (cells : List Cell) (v : Cell) (hmem : v ∈ cells)
    (hv : v ≠ Cell.na) : (v, countv cells v) ∈ value_counts cells := by
  have h1 : lookupAssoc (value_counts cells) v = countv cells v := by
    have := value_counts_fold_lookup cells v hv []
    rw [lookupAssoc_nil, zero_add] at this
    exact this
  have h2 : ∃ x, (v, x) ∈ value_counts cells :=
    value_counts_fold_keys cells v [] (Or.inr ⟨hmem, hv⟩)
  have := mem_of_exists_mem (value_counts cells) v h2
  rwa [h1] at this

/-- Restriction of the direct group-sum recomputation to a pair list. -/
def pairSum (ps : List (Cell × Cell)) (v : Cell) : ℚ :=
  ((ps.filter (fun p => p.1 = v)).map (fun p => cellQ p.2)).sum

lemma pairSum_cons (k y : Cell) (rest : List (Cell × Cell)) (v : Cell) :
    pairSum ((k, y) :: rest) v =
      (if k = v then cellQ y else 0) + pairSum rest v := by
  by_cases h : k = v <;> simp [pairSum, List.filter_cons, h]

/-- Running the `groupby(...).sum()` fold starting from `acc` adds each
non-missing key's group sum to its entry. -/
lemma groupby_sum_aux_lookup (ps : List (Cell × Cell)) (v : Cell) (hv : v ≠ Cell.na) :
    ∀ (acc res : List (Cell × ℚ)), groupby_sum_aux ps acc = Except.ok res →
      lookupAssoc res v = lookupAssoc acc v + pairSum ps v := by
  induction ps with
  | nil =>
    intro acc res h
    have : acc = res := by
      simpa [groupby_sum_aux] using h
    subst this
    simp [pairSum]
  | cons p rest ih =>
    obtain ⟨k, y⟩ := p
    intro acc res h
    by_cases hk : k = Cell.na
    · subst hk
      rw [groupby_sum_aux.eq_def] at h
      simp only [if_pos rfl] at h
      have hkv : ¬(Cell.na = v) := fun hh => hv (Eq.symm hh)
      rw [pairSum_cons, if_neg hkv, zero_add]
      exact ih acc res h
    · match y with
      | Cell.str s =>
        rw [groupby_sum_aux, if_neg hk] at h
        exact absurd h (by simp)
      | Cell.na =>
        rw [groupby_sum_aux, if_neg hk] at h
        rw [pairSum_cons]
        by_cases hkv : k = v
        · subst hkv
          rw [if_pos rfl, ih _ _ h, lookupAssoc_bumpAssoc_self]
          show _ = lookupAssoc acc k + (cellQ Cell.na + pairSum rest k)
          rw [show cellQ Cell.na = 0 from rfl, add_zero, zero_add]
        · rw [if_neg hkv, zero_add, ih _ _ h,
            lookupAssoc_bumpAssoc_ne acc k v 0 (fun hh => hkv (Eq.symm hh))]
      | Cell.num q =>
        rw [groupby_sum_aux, if_neg hk] at h
        rw [pairSum_cons]
        by_cases hkv : k = v
        · subst hkv
          rw [if_pos rfl, ih _ _ h, lookupAssoc_bumpAssoc_self]
          show _ = lookupAssoc acc k + (cellQ (Cell.num q) + pairSum rest k)
          rw [show cellQ (Cell.num q) = q from rfl]
          ring
        · rw [if_neg hkv, zero_add, ih _ _ h,
            lookupAssoc_bumpAssoc_ne acc k v q (fun hh => hkv (Eq.symm hh))]

/-- The `groupby(...).sum()` fold keeps an entry for every non-missing key. -/
lemma groupby_sum_aux_keys (ps : List (Cell × Cell)) (v : Cell) (hv : v ≠ Cell.na) :
    ∀ (acc res : List (Cell × ℚ)), groupby_sum_aux ps acc = Except.ok res →
      ((∃ x, (v, x) ∈ acc) ∨ (∃ y, (v, y) ∈ ps)) → ∃ x, (v, x) ∈ res := by
  induction ps with
  | nil =>
    intro acc res h hm
    have : acc = res := by
      simpa [groupby_sum_aux] using h
    subst this
    rcases hm with hm | ⟨y, hy⟩
    · exact hm
    · simp at hy
  | cons p rest ih =>
    obtain ⟨k, y⟩ := p
    intro acc res h hm
    by_cases hk : k = Cell.na
    · subst hk
      rw [groupby_sum_aux.eq_def] at h
      simp only [if_pos rfl] at h
      apply ih acc res h
      rcases hm with hm | ⟨z, hz⟩
      · exact Or.inl hm
      · rcases List.mem_cons.mp hz with hz | hz
        · exact absurd (congrArg Prod.fst hz) hv
        · exact Or.inr ⟨z, hz⟩
    · match y with
      | Cell.str s =>
        rw [groupby_sum_aux, if_neg hk] at h
        exact absurd h (by simp)
      | Cell.na =>
        rw [groupby_sum_aux, if_neg hk] at h
        apply ih _ res h
        rcases hm with hm | ⟨z, hz⟩
        · exact Or.inl (exists_mem_bumpAssoc_of_mem acc k v 0 hm)
        · rcases List.mem_cons.mp hz with hz | hz
          · have hvk : v = k := congrArg Prod.fst hz
            subst hvk
            exact Or.inl (exists_mem_bumpAssoc_self acc v 0)
          · exact Or.inr ⟨z, hz⟩
      | Cell.num q =>
        rw [groupby_sum_aux, if_neg hk] at h
        apply ih _ res h
        rcases hm with hm | ⟨z, hz⟩
        · exact Or.inl (exists_mem_bumpAssoc_of_mem acc k v q hm)
        · rcases List.mem_cons.mp hz with hz | hz
          · have hvk : v = k := congrArg Prod.fst hz
            subst hvk
            exact Or.inl (exists_mem_bumpAssoc_self acc v q)
          · exact Or.inr ⟨z, hz⟩

/-- C4: in the y-less bar/pie aggregation (`df[x].value_counts()`, lines 149
and 180) every distinct non-missing x-value of the input appears with exactly
its directly recomputed frequency — nothing is silently dropped — and in the
pie-with-y aggregation (`df.groupby(x)[y].sum()`, line 177) every distinct
non-missing x-value appears with exactly the directly recomputed sum of the
y-values of its rows. -/
theorem aggregation_faithful :
    (∀ (cells : List Cell) (v : Cell), v ∈ cells → v ≠ Cell.na →
      (v, countv cells v) ∈ value_counts cells)
    ∧ (∀ (xs ys : List Cell) (res : List (Cell × ℚ)) (v y : Cell),
        groupby_sum xs ys = Except.ok res → (v, y) ∈ xs.zip ys → v ≠ Cell.na →
        (v, directGroupSum xs ys v) ∈ res) := by
  constructor
  · exact fun cells v h1 h2 => value_counts_mem cells v h1 h2
  · intro xs ys res v y h hm hv
    have h1 : lookupAssoc res v = directGroupSum xs ys v := by
      have h2 := groupby_sum_aux_lookup (xs.zip ys) v hv [] res h
      rw [lookupAssoc_nil, zero_add] at h2
      exact h2
    have h2 : ∃ x, (v, x) ∈ res :=
      groupby_sum_aux_keys (xs.zip ys) v hv [] res h (Or.inr ⟨y, hm⟩)
    have h3 := mem_of_exists_mem res v h2
    rwa [h1] at h3

/-- Witness for `aggregation_faithful`: a three-row categorical column and a
three-row grouped sum. -/
theorem aggregation_faithful_witness :
    (Cell.str ("x"), countv [Cell.str ("x"), Cell.str ("y"), Cell.str ("x")] (Cell.str ("x")))
      ∈ value_counts [Cell.str ("x"), Cell.str ("y"), Cell.str ("x")]
    ∧ (Cell.str ("a"),
        directGroupSum [Cell.str ("a"), Cell.str ("b"), Cell.str ("a")]
          [Cell.num 1, Cell.num 2, Cell.num 5] (Cell.str ("a")))
      ∈ [(Cell.str ("a"), (6 : ℚ)), (Cell.str ("b"), (2 : ℚ))] :=
  ⟨aggregation_faithful.1 _ _ (by decide) (by decide),
   aggregation_faithful.2 _ _ _ _ (Cell.num 1)
     (by
       norm_num [groupby_sum, groupby_sum_aux, bumpAssoc]
       simp) (by decide) (by decide)⟩

/-! ## Facts about the correlation matrix -/

lemma mem_completePairs_self (xs : List Cell) : ∀ p ∈ completePairs xs xs, p.1 = p.2 := by
  induction xs with
  | nil => intro p hp; simp [completePairs] at hp
  | cons c rest ih =>
    intro p hp
    match c with
    | Cell.num q =>
      simp only [completePairs, List.zip_cons_cons, List.filterMap_cons, cellNumOf] at hp
      rcases List.mem_cons.mp hp with hp | hp
      · rw [hp]
      · exact ih p hp
    | Cell.str s =>
      simp only [completePairs, List.zip_cons_cons, List.filterMap_cons, cellNumOf] at hp
      exact ih p hp
    | Cell.na =>
      simp only [completePairs, List.zip_cons_cons, List.filterMap_cons, cellNumOf] at hp
      exact ih p hp

lemma map_snd_eq_map_fst {ps : List (ℚ × ℚ)} (h : ∀ p ∈ ps, p.1 = p.2) :
    ps.map Prod.snd = ps.map Prod.fst :=
  List.map_congr_left (fun p hp => (h p hp).symm)

lemma covXY_eq_ssX {ps : List (ℚ × ℚ)} (h : ∀ p ∈ ps, p.1 = p.2) : covXY ps = ssX ps := by
  unfold covXY ssX
  rw [map_snd_eq_map_fst h]
  apply congrArg List.sum
  apply List.map_congr_left
  intro p hp
  rw [← h p hp]

lemma ssY_eq_ssX {ps : List (ℚ × ℚ)} (h : ∀ p ∈ ps, p.1 = p.2) : ssY ps = ssX ps := by
  unfold ssY ssX
  rw [map_snd_eq_map_fst h]
  apply congrArg List.sum
  apply List.map_congr_left
  intro p hp
  rw [← h p hp]

/-- The pandas diagonal: a self-correlation is `1` whenever the column has
positive (unnormalised) variance. -/
lemma corrEntry_self (xs : List Cell) (h : 0 < colSS xs) : corrEntry xs xs = 1 := by
  have hps := mem_completePairs_self xs
  unfold corrEntry
  rw [covXY_eq_ssX hps, ssY_eq_ssX hps]
  have hss : ssX (completePairs xs xs) = colSS xs := rfl
  rw [hss, Real.sqrt_mul_self (le_of_lt h)]
  exact div_self (ne_of_gt h)

lemma corr_length (cols : List (List Cell)) : (corr cols).length = cols.length := by
  simp [corr]

lemma corr_row_length (cols : List (List Cell)) :
    ∀ row ∈ corr cols, row.length = cols.length := by
  intro row hrow
  simp only [corr, List.mem_map] at hrow
  obtain ⟨c, _, rfl⟩ := hrow
  simp

lemma corr_diag (cols : List (List Cell)) (i : ℕ) (hi : i < cols.length)
    (hv : ∀ c ∈ cols, 0 < colSS c) :
    ((corr cols).getD i []).getD i 0 = 1 := by
  have hlen : i < (corr cols).length := by
    rw [corr_length]; exact hi
  have hrow : (corr cols).getD i [] = cols.map (fun c2 => corrEntry cols[i] c2) := by
    rw [List.getD_eq_getElem?_getD, List.getElem?_eq_getElem hlen, Option.getD_some]
    simp [corr]
  rw [hrow]
  have hlen2 : i < (cols.map (fun c2 => corrEntry cols[i] c2)).length := by
    rw [List.length_map]; exact hi
  rw [List.getD_eq_getElem?_getD, List.getElem?_eq_getElem hlen2, Option.getD_some,
    List.getElem_map]
  exact corrEntry_self _ (hv _ (List.getElem_mem hi))

/-- C2 (amended with the positive-variance proviso forced by
`heatmap_corr_diag_cex`): on a dataframe with at least two numeric columns, a
heatmap render succeeds and hands exactly the numeric columns to `.corr()`,
and the resulting Pearson matrix is square of size `len(numericColumns)`
with every diagonal entry equal to `1.0` provided every numeric column has
positive variance over its observations (pandas yields `NaN`, not `1.0`, on
a constant column). -/
theorem heatmap_corr_matrix (df : List Col) (cfg : Cfg)
    (hty : cfg.chart_type = "heatmap")
    (hcm : knownCmaps.contains cfg.color_scheme)
    (hn : 2 ≤ (numericCols df).length)
    (hv : ∀ c ∈ numericCols df, 0 < colSS c.cells) :
    (∃ img : Fig, renderFigure df cfg = Except.ok img ∧
      PlotOp.heatmap ((numericCols df).map (fun c => (c.name, c.cells))) ∈ img.ops)
    ∧ (corr ((numericCols df).map (fun c => c.cells))).length = (numericCols df).length
    ∧ (∀ row ∈ corr ((numericCols df).map (fun c => c.cells)),
        row.length = (numericCols df).length)
    ∧ (∀ i, i < (numericCols df).length →
        ((corr ((numericCols df).map (fun c => c.cells))).getD i []).getD i 0 = 1) := by
  have hnotlt : ¬((numericCols df).length < 2) := by omega
  refine ⟨?_, ?_, ?_, ?_⟩
  · refine ⟨{ size := (cfg.width, cfg.height),
              ops := [PlotOp.heatmap ((numericCols df).map (fun c => (c.name, c.cells))),
                      PlotOp.colorbar],
              xlabel := none, ylabel := none, title := some cfg.title }, ?_, by simp⟩
    have hmem : cfg.color_scheme ∈ knownCmaps := by simpa using hcm
    simp [renderFigure, renderBranch, hty, hnotlt, get_cmap, hmem, Except.map]
  · rw [corr_length, List.length_map]
  · intro row hrow
    rw [corr_row_length _ row hrow, List.length_map]
  · intro i hi
    apply corr_diag
    · rw [List.length_map]; exact hi
    · intro c hc
      rw [List.mem_map] at hc
      obtain ⟨col, hcol, rfl⟩ := hc
      exact hv col hcol

/-- A dataframe whose first numeric column is constant. -/
def constDf : List Col :=
  [{ name := "a", dtype := Dtype.numeric, cells := [Cell.num 1, Cell.num 1] },
   { name := "b", dtype := Dtype.numeric, cells := [Cell.num 1, Cell.num 2] }]

/-- C2 counterexample: `constDf` has two numeric columns, yet the diagonal
entry of the correlation matrix for the constant column `a` is `0` in this
embedding (`NaN` in pandas: zero divisor), not `1.0`. -/
theorem heatmap_corr_diag_cex :
    2 ≤ (numericCols constDf).length
    ∧ ((corr ((numericCols constDf).map (fun c => c.cells))).getD 0 []).getD 0 0 ≠ 1 := by
  constructor
  · decide
  · have he : numericCols constDf = constDf := by decide
    rw [he]
    have h0 : ((corr (constDf.map (fun c => c.cells))).getD 0 []).getD 0 0
        = corrEntry [Cell.num 1, Cell.num 1] [Cell.num 1, Cell.num 1] := by
      simp [corr, constDf]
    rw [h0]
    have hcp : completePairs [Cell.num 1, Cell.num 1] [Cell.num 1, Cell.num 1]
        = [((1 : ℚ), (1 : ℚ)), (1, 1)] := by decide
    have hcov : covXY [((1 : ℚ), (1 : ℚ)), (1, 1)] = 0 := by
      norm_num [covXY, meanR, qsum]
    unfold corrEntry
    rw [hcp, hcov, zero_div]
    norm_num

/-- A dataframe with two non-constant numeric columns. -/
def heatDf : List Col :=
  [{ name := "a", dtype := Dtype.numeric, cells := [Cell.num 1, Cell.num 2] },
   { name := "b", dtype := Dtype.numeric, cells := [Cell.num 2, Cell.num 1] }]

/-- Witness for `heatmap_corr_matrix` at `heatDf`. -/
theorem heatmap_corr_matrix_witness :
    ((corr ((numericCols heatDf).map (fun c => c.cells))).getD 0 []).getD 0 0 = 1 :=
  (heatmap_corr_matrix heatDf { chart_type := "heatmap", x_column := "a" } rfl (by decide)
    (by decide)
    (by
      intro c hc
      have he : numericCols heatDf = heatDf := by decide
      rw [he] at hc
      have hss : ∀ l : List Cell, l = [Cell.num 1, Cell.num 2] ∨ l = [Cell.num 2, Cell.num 1] →
          0 < colSS l := by
        intro l hl
        rcases hl with hl | hl <;> subst hl
        · have h1 : completePairs [Cell.num 1, Cell.num 2] [Cell.num 1, Cell.num 2]
              = [((1 : ℚ), (1 : ℚ)), (2, 2)] := by decide
          unfold colSS
          rw [h1]
          norm_num [ssX, meanR, qsum]
        · have h1 : completePairs [Cell.num 2, Cell.num 1] [Cell.num 2, Cell.num 1]
              = [((2 : ℚ), (2 : ℚ)), (1, 1)] := by decide
          unfold colSS
          rw [h1]
          norm_num [ssX, meanR, qsum]
      rcases List.mem_cons.mp hc with hc | hc
      · exact hss c.cells (Or.inl (by rw [hc]))
      · rcases List.mem_cons.mp hc with hc | hc
        · exact hss c.cells (Or.inr (by rw [hc]))
        · simp at hc)).2.2.2 0 (by decide)

/-! ## The chart store endpoints -/

/-- C6 (amended with the 1000-record proviso forced by
`charts_listing_cex`): every record `get_charts` returns has its
storage-engine `_id` stripped and comes from the store, and — provided the
store holds at most 1000 records (`to_list(1000)`) — every stored record is
returned. -/
theorem charts_listing (store : List ChartDoc) :
    (∀ d ∈ get_charts store, d.mongoId = none)
    ∧ (∀ d ∈ get_charts store, ∃ d2 ∈ store, d = stripDoc d2)
    ∧ (store.length ≤ 1000 → ∀ d ∈ store, stripDoc d ∈ get_charts store) := by
  refine ⟨?_, ?_, ?_⟩
  · intro d hd
    simp only [get_charts, List.mem_map] at hd
    obtain ⟨d2, _, rfl⟩ := hd
    rfl
  · intro d hd
    simp only [get_charts, List.mem_map] at hd
    obtain ⟨d2, hd2, rfl⟩ := hd
    exact ⟨d2, List.mem_of_mem_take hd2, rfl⟩
  · intro hlen d hd
    simp only [get_charts, List.mem_map]
    exact ⟨d, by rw [List.take_of_length_le hlen]; exact hd, rfl⟩

/-- A minimal stored chart document with distinguishing timestamp `i`. -/
def simpleDoc (i : ℕ) : ChartDoc :=
  { mongoId := some i, id := toString i, filename := "f",
    data := { header := [], rows := [] },
    config := { chart_type := "bar", x_column := "a" },
    chart_image := { size := (0, 0), ops := [], xlabel := none, ylabel := none, title := none },
    timestamp := i }

/-- A store holding 1001 chart records. -/
def bigStore : List ChartDoc := (List.range 1001).map simpleDoc

/-- C6 counterexample: with 1001 stored records, `to_list(1000)` drops the
last one — `get_charts` does not return every stored chart record. -/
theorem charts_listing_cex :
    simpleDoc 1000 ∈ bigStore ∧ stripDoc (simpleDoc 1000) ∉ get_charts bigStore := by
  constructor
  · rw [bigStore]
    exact List.mem_map_of_mem _ (List.mem_range.mpr (by norm_num))
  · intro hmem
    have htake : bigStore.take 1000 = (List.range 1000).map simpleDoc := by
      rw [bigStore, show (1001 : ℕ) = Nat.succ 1000 from rfl, List.range_succ,
        List.map_append]
      exact List.take_left' (by simp)
    rw [get_charts, htake] at hmem
    rw [List.mem_map] at hmem
    obtain ⟨d, hd, heq⟩ := hmem
    rw [List.mem_map] at hd
    obtain ⟨i, hi, rfl⟩ := hd
    have hts : i = 1000 := congrArg ChartDoc.timestamp heq
    rw [List.mem_range] at hi
    omega

/-- Witness for `charts_listing` on a one-record store. -/
theorem charts_listing_witness :
    (∀ d ∈ get_charts [simpleDoc 0], d.mongoId = none)
    ∧ stripDoc (simpleDoc 0) ∈ get_charts [simpleDoc 0] :=
  ⟨(charts_listing [simpleDoc 0]).1,
   (charts_listing [simpleDoc 0]).2.2 (by norm_num) (simpleDoc 0) (by simp)⟩

/-! ## The request handler: persistence and global figure state -/

/-- C8: every `generate_chart` call either succeeds — returning the rendered
image and appending exactly one complete chart record (with that image) to
the store — or fails with an error response and leaves the store unchanged.
No partial-success state exists; in particular the insert at line 226 runs
only after parsing and rendering have succeeded. -/
theorem atomic_persistence (now : ℕ) (newId : String) (store : List ChartDoc) (figs : ℕ)
    (req : Request) :
    (∃ df img, read_csv_checked req.data = Except.ok df ∧
        renderFigure df req.config = Except.ok img ∧
        (generate_chart now newId store figs req).resp =
          Except.ok { id := newId, chart_image := img,
                      message := "Chart generated successfully" } ∧
        (generate_chart now newId store figs req).store =
          store ++ [mkDoc now newId store.length req img])
    ∨ ((∃ e, (generate_chart now newId store figs req).resp = Except.error e)
        ∧ (generate_chart now newId store figs req).store = store) := by
  cases hp : read_csv_checked req.data with
  | error e =>
    right
    constructor
    · exact ⟨⟨500, "Error generating chart: " ++ excStr e⟩, by simp [generate_chart, hp]⟩
    · simp [generate_chart, hp]
  | ok df =>
    cases hr : renderFigure df req.config with
    | error e =>
      right
      constructor
      · exact ⟨⟨500, "Error generating chart: " ++ excStr e⟩, by simp [generate_chart, hp, hr]⟩
      · simp [generate_chart, hp, hr]
    | ok img =>
      left
      exact ⟨df, img, rfl, hr, by simp [generate_chart, hp, hr], by simp [generate_chart, hp, hr]⟩

/-- C5 (amended as forced by `figure_disposal_cex`): the figure opened at
line 141 is closed (line 216) only on the success path; a failure before the
figure exists (CSV parse failure) leaves the count unchanged, but any
exception raised during rendering reaches the `except` handler without
`plt.close()` ever running, leaking one open figure per failed call. -/
theorem figure_disposal (now : ℕ) (newId : String) (store : List ChartDoc) (figs : ℕ)
    (req : Request) :
    ((generate_chart now newId store figs req).resp.isOk = true →
      (generate_chart now newId store figs req).openFigures = figs)
    ∧ (∀ df, read_csv_checked req.data = Except.ok df →
        (renderFigure df req.config).isOk = false →
        (generate_chart now newId store figs req).openFigures = figs + 1)
    ∧ ((read_csv_checked req.data).isOk = false →
        (generate_chart now newId store figs req).openFigures = figs) := by
  refine ⟨?_, ?_, ?_⟩
  · intro hok
    cases hp : read_csv_checked req.data with
    | error e => simp [generate_chart, hp]
    | ok df =>
      cases hr : renderFigure df req.config with
      | error e =>
        exfalso
        rw [show (generate_chart now newId store figs req).resp =
          Except.error { status := 500, detail := "Error generating chart: " ++ excStr e }
          from by simp [generate_chart, hp, hr]] at hok
        simp [Except.isOk, Except.toBool] at hok
      | ok img => simp [generate_chart, hp, hr]
  · intro df hp hfail
    cases hr : renderFigure df req.config with
    | error e => simp [generate_chart, hp, hr]
    | ok img =>
      rw [hr] at hfail
      simp [Except.isOk, Except.toBool] at hfail
  · intro hfail
    cases hp : read_csv_checked req.data with
    | error e => simp [generate_chart, hp]
    | ok df =>
      rw [hp] at hfail
      simp [Except.isOk, Except.toBool] at hfail

/-- A scatter request with no `y_column` on a one-column numeric CSV. -/
def scatterNoYReq : Request :=
  { filename := "f.csv", data := { header := ["a"], rows := [["1"], ["2"]] },
    config := { chart_type := "scatter", x_column := "a" } }

/-- C5 counterexample: the erroring scatter call returns with the figure it
opened still open (`openFigures` goes from 0 to 1) — the drawing state is
not reset on this error exit path. -/
theorem figure_disposal_cex :
    (generate_chart 0 "u1" [] 0 scatterNoYReq).resp.isOk = false
    ∧ (generate_chart 0 "u1" [] 0 scatterNoYReq).openFigures = 1 := by decide

/-- A successful one-column bar request. -/
def okBarReq : Request :=
  { filename := "f.csv", data := { header := ["a"], rows := [["x"], ["y"]] },
    config := { chart_type := "bar", x_column := "a" } }

/-- Witness for `figure_disposal`: the success branch restores the figure
count and the render-failure branch leaks one figure. -/
theorem figure_disposal_witness :
    (generate_chart 0 "w1" [] 0 okBarReq).openFigures = 0
    ∧ (generate_chart 0 "w2" [] 5 scatterNoYReq).openFigures = 6 :=
  ⟨(figure_disposal 0 "w1" [] 0 okBarReq).1 (by decide),
   (figure_disposal 0 "w2" [] 5 scatterNoYReq).2.1 (read_csv scatterNoYReq.data)
     (by decide) (by decide)⟩

/-- A bar request whose `x_column` names no column of the dataset. -/
def missingXBarReq : Request :=
  { filename := "f.csv", data := { header := ["a"], rows := [["1"]] },
    config := { chart_type := "bar", x_column := "nosuch" } }

/-- A heatmap request on a dataset with a single numeric column. -/
def heatmap1NumReq : Request :=
  { filename := "f.csv", data := { header := ["a", "b"], rows := [["1", "x"], ["2", "y"]] },
    config := { chart_type := "heatmap", x_column := "a" } }

/-- C1: all three user-input error cases surface as 500, not 400.
`fastapi.HTTPException` derives from `Exception`, so the explicit
`HTTPException(400, ...)` raised for a y-less scatter (line 172) and for a
heatmap with fewer than two numeric columns (line 194) is caught by the
blanket `except Exception` at line 234 and re-raised as a 500 whose detail
wraps the original message; a missing `x_column` raises a bare `KeyError`
(no 400 anywhere) and becomes a 500 the same way. No chart record is
persisted in any of the three cases (the only true half of the claim). -/
theorem user_input_errors_500 :
    ((generate_chart 0 "u1" [] 0 scatterNoYReq).resp =
      Except.error
        ⟨500, "Error generating chart: 400: Scatter plot requires both X and Y columns"⟩)
    ∧ (generate_chart 0 "u1" [] 0 scatterNoYReq).store = []
    ∧ ((generate_chart 0 "u2" [] 0 heatmap1NumReq).resp =
      Except.error
        ⟨500, "Error generating chart: 400: Heatmap requires at least 2 numeric columns"⟩)
    ∧ (generate_chart 0 "u2" [] 0 heatmap1NumReq).store = []
    ∧ ((generate_chart 0 "u3" [] 0 missingXBarReq).resp =
      Except.error ⟨500, "Error generating chart: nosuch"⟩)
    ∧ (generate_chart 0 "u3" [] 0 missingXBarReq).store = [] := by
  exact ⟨rfl, rfl, rfl, rfl, rfl, rfl⟩

/-- C7: after a successful generation (fresh id), `get_chart` on the
returned id finds the just-inserted record and returns it with all logical
fields intact — id, filename, source data, config, rendered image and
timestamp — and only the storage-engine `_id` stripped. -/
theorem save_then_get (now : ℕ) (newId : String) (store : List ChartDoc) (figs : ℕ)
    (req : Request) (df : List Col) (img : Fig)
    (hfresh : ∀ d ∈ store, d.id ≠ newId)
    (hparse : read_csv_checked req.data = Except.ok df)
    (hrender : renderFigure df req.config = Except.ok img) :
    get_chart (generate_chart now newId store figs req).store newId =
      Except.ok { mongoId := none, id := newId, filename := req.filename, data := req.data,
                  config := req.config, chart_image := img, timestamp := now } := by
  have hstore : (generate_chart now newId store figs req).store =
      store ++ [mkDoc now newId store.length req img] := by
    simp [generate_chart, hparse, hrender]
  rw [hstore]
  unfold get_chart
  rw [List.find?_append]
  have h1 : store.find? (fun d => d.id = newId) = none := by
    rw [List.find?_eq_none]
    intro d hd
    simp only [decide_eq_true_eq]
    exact hfresh d hd
  rw [h1]
  have h2 : List.find? (fun d => d.id = newId) [mkDoc now newId store.length req img] =
      some (mkDoc now newId store.length req img) := by
    simp [mkDoc]
  rw [Option.none_or, h2]
  rfl

/-- A three-row bar request used as the save/get witness. -/
def wReq : Request :=
  { filename := "w.csv", data := { header := ["a"], rows := [["x"], ["y"], ["x"]] },
    config := { chart_type := "bar", x_column := "a", title := "T" } }

/-- The figure the bar render of `wReq` produces. -/
def wImg : Fig :=
  { size := (800, 600),
    ops := [PlotOp.bar [Cell.str ("x"), Cell.str ("y")] [Cell.num 2, Cell.num 1],
            PlotOp.xticksRot],
    xlabel := some ("a"), ylabel := some ("Count"), title := some ("T") }

/-- Witness for `save_then_get` on an empty store. -/
theorem save_then_get_witness :
    get_chart (generate_chart 7 "u9" [] 0 wReq).store "u9" =
      Except.ok { mongoId := none, id := "u9", filename := "w.csv", data := wReq.data,
                  config := wReq.config, chart_image := wImg, timestamp := 7 } :=
  save_then_get 7 "u9" [] 0 wReq (read_csv wReq.data) wImg (by simp) (by decide) (by decide)

/-- The figure a no-op dispatch leaves behind: only the size and title set. -/
def emptyImg (cfg : Cfg) : Fig :=
  { size := (cfg.width, cfg.height), ops := [], xlabel := none, ylabel := none,
    title := some cfg.title }

/-- C9: a request whose `chart_type` matches none of the six branches does
not fail: it falls through the whole dispatch, renders an image carrying
only the title (no drawing primitive, no axis labels), persists a record
with that image, and returns success. -/
theorem unknown_chart_type (now : ℕ) (newId : String) (store : List ChartDoc) (figs : ℕ)
    (req : Request) (df : List Col)
    (hty : req.config.chart_type ∉
      (["bar", "line", "scatter", "pie", "histogram", "heatmap"] : List String))
    (hparse : read_csv_checked req.data = Except.ok df) :
    generate_chart now newId store figs req =
      ⟨Except.ok ⟨newId, emptyImg req.config, "Chart generated successfully"⟩,
       store ++ [mkDoc now newId store.length req (emptyImg req.config)], figs⟩ := by
  have h1 : ¬(req.config.chart_type = "bar") := fun h => hty (by rw [h]; simp)
  have h2 : ¬(req.config.chart_type = "line") := fun h => hty (by rw [h]; simp)
  have h3 : ¬(req.config.chart_type = "scatter") := fun h => hty (by rw [h]; simp)
  have h4 : ¬(req.config.chart_type = "pie") := fun h => hty (by rw [h]; simp)
  have h5 : ¬(req.config.chart_type = "histogram") := fun h => hty (by rw [h]; simp)
  have h6 : ¬(req.config.chart_type = "heatmap") := fun h => hty (by rw [h]; simp)
  have hrender : renderFigure df req.config = Except.ok (emptyImg req.config) := by
    simp [renderFigure, renderBranch, emptyImg, h1, h2, h3, h4, h5, h6]
    rfl
  simp [generate_chart, hparse, hrender]

/-- An otherwise well-formed request with the unsupported type `area`. -/
def areaReq : Request :=
  { filename := "f.csv", data := { header := ["a"], rows := [["1"]] },
    config := { chart_type := "area", x_column := "a", title := "T2" } }

/-- Witness for `unknown_chart_type` at `areaReq`. -/
theorem unknown_chart_type_witness :
    generate_chart 3 "u7" [] 2 areaReq =
      ⟨Except.ok ⟨"u7", emptyImg areaReq.config, "Chart generated successfully"⟩,
       [mkDoc 3 "u7" 0 areaReq (emptyImg areaReq.config)], 2⟩ :=
  unknown_chart_type 3 "u7" [] 2 areaReq (read_csv areaReq.data) (by decide) (by decide)

/-- C10 (amended as forced by `invalid_y_fallback_cex`): with a `y_column`
that names no existing column, the guard `y_column and y_column in
df.columns` is false, so the call does not fail; a bar render behaves
exactly as if `y_column` were absent, and a line render plots row-index
versus x exactly as if absent — except that line 164
(`plt.xlabel(x_column if y_column else ...)`) tests bare truthiness, so for
a non-empty invalid `y_column` the final x-axis label is `x_column` instead
of `Index`. An empty-string `y_column` is falsy and matches the absent case
exactly. -/
theorem invalid_y_fallback (df : List Col) (cfg : Cfg) (s : String)
    (hs : s ∉ columnsOf df) :
    (cfg.chart_type = "bar" →
      renderFigure df { cfg with y_column := some s } =
        renderFigure df { cfg with y_column := none })
    ∧ (cfg.chart_type = "line" → ¬(s = "") →
      renderFigure df { cfg with y_column := some s } =
        Except.map (fun f => { f with xlabel := some cfg.x_column })
          (renderFigure df { cfg with y_column := none }))
    ∧ (cfg.chart_type = "line" → s = "" →
      renderFigure df { cfg with y_column := some s } =
        renderFigure df { cfg with y_column := none }) := by
  have hyt1 : yTruthyIn (some s) (columnsOf df) = false := by
    simp [yTruthyIn, List.contains, hs]
  have hyt2 : yTruthyIn none (columnsOf df) = false := rfl
  refine ⟨?_, ?_, ?_⟩
  · intro hty
    simp [renderFigure, renderBranch, hty, hyt1, hyt2]
  · intro hty hne
    cases hx : dfCol df cfg.x_column with
    | error e =>
      simp [renderFigure, renderBranch, hty, hyt1, hyt2, hx, Bind.bind, Except.bind,
        Functor.map, Except.map, Pure.pure, Except.pure]
    | ok xc =>
      cases hc : get_cmap cfg.color_scheme with
      | error e =>
        simp [renderFigure, renderBranch, hty, hyt1, hyt2, hx, hc, Bind.bind, Except.bind,
          Functor.map, Except.map, Pure.pure, Except.pure]
      | ok u =>
        simp [renderFigure, renderBranch, hty, hyt1, hyt2, hx, hc, yTruthy, hne, Bind.bind,
          Except.bind, Functor.map, Except.map, Pure.pure, Except.pure]
  · intro hty he
    subst he
    cases hx : dfCol df cfg.x_column with
    | error e =>
      simp [renderFigure, renderBranch, hty, hyt1, hyt2, hx, Bind.bind, Except.bind,
        Functor.map, Except.map, Pure.pure, Except.pure]
    | ok xc =>
      cases hc : get_cmap cfg.color_scheme with
      | error e =>
        simp [renderFigure, renderBranch, hty, hyt1, hyt2, hx, hc, Bind.bind, Except.bind,
          Functor.map, Except.map, Pure.pure, Except.pure]
      | ok u =>
        simp [renderFigure, renderBranch, hty, hyt1, hyt2, hx, hc, yTruthy, Bind.bind,
          Except.bind, Functor.map, Except.map, Pure.pure, Except.pure]

/-- A one-numeric-column dataframe for the line fallback. -/
def lineDf : List Col :=
  [{ name := "a", dtype := Dtype.numeric, cells := [Cell.num 1, Cell.num 2] }]

/-- C10 counterexample: a line render with the invalid y-column `bad` does
not fail, but its result differs from the y-absent render (the x-axis label
is `a` rather than `Index`), so it does not behave exactly as if `y_column`
were absent. -/
theorem invalid_y_fallback_cex :
    (renderFigure lineDf
        { chart_type := "line", x_column := "a", y_column := some ("bad") }).isOk = true
    ∧ renderFigure lineDf { chart_type := "line", x_column := "a", y_column := some ("bad") } ≠
      renderFigure lineDf { chart_type := "line", x_column := "a", y_column := none } := by
  exact ⟨by decide, by decide⟩

/-- Witness for `invalid_y_fallback`: the bar case agrees exactly, the line
case agrees up to the relabelled x-axis. -/
theorem invalid_y_fallback_witness :
    renderFigure lineDf { chart_type := "bar", x_column := "a", y_column := some ("bad") } =
      renderFigure lineDf { chart_type := "bar", x_column := "a", y_column := none }
    ∧ renderFigure lineDf { chart_type := "line", x_column := "a", y_column := some ("bad") } =
      Except.map (fun f => { f with xlabel := some ("a") })
        (renderFigure lineDf { chart_type := "line", x_column := "a", y_column := none }) :=
  ⟨(invalid_y_fallback lineDf { chart_type := "bar", x_column := "a" } "bad" (by decide)).1 rfl,
   (invalid_y_fallback lineDf { chart_type := "line", x_column := "a" } "bad"
     (by decide)).2.1 rfl (by decide)⟩

end ChartLab
